import Mathlib

/-!
# libFAT: boot-sector geometry and directory-entry classification

A shallow embedding of `src/fat32.h` (class `FAT32`) and of the
`DirectoryEntry` class, `printDirectoryEntry` and the directory loop of `main`
of `src/main.cpp`.

Modelling conventions.

* A buffer (`uint8_t*`) is a list of bytes; a byte is a `Fin 256`.  The packed
  structs that the source overlays on a buffer are given as ordered lists of
  (field, width in bytes); every field offset is computed from those lists, the
  way a packed struct lays its fields out, and multi-byte fields are read
  little-endian (the byte order of the hosts the program is written for).
* Machine integers are `Nat` / `Int` with explicit reduction: unsigned 32-bit
  results are taken modulo `2^32 = 4294967296`; `int` is 32 bits wide, `int`
  results are brought back into `[-2^31, 2^31)` by `toInt32` (two's complement
  wrap-around; `2^31 = 2147483648`), and `u32ToInt` is the conversion
  `uint32_t -> int`; `size_t` and `uintptr_t` are 64 bits wide
  (`2^64 = 18446744073709551616`; LP64: the source prints them with `%lu`).
  Overflow of a signed `int` operation, which C++ leaves undefined, is given
  the wrap-around result that the two's complement hardware produces.
-/

set_option maxRecDepth 100000

namespace filesystem
namespace fat32

/-! ## Bytes and machine integers -/

/-- The value of the byte at offset `off` of a buffer (0 past its end). -/
def byteAt (buf : List (Fin 256)) (off : Nat) : Nat :=
  (buf.getD off 0).val

/-- The little-endian unsigned integer held in the `n` bytes at `off`. -/
def readLE (buf : List (Fin 256)) (off : Nat) : Nat → Nat
  | 0 => 0
  | n + 1 => byteAt buf off + 256 * readLE buf (off + 1) n

/-- Conversion of an integer to `uint32_t`. -/
def toU32 (x : Int) : Nat := (x % 4294967296).toNat

/-- Conversion of an integer to a 32-bit `int` (two's complement). -/
def toInt32 (x : Int) : Int := (x + 2147483648) % 4294967296 - 2147483648

/-- Conversion `uint32_t -> int` of a value below `2^32`: values from `2^31` on
become negative (two's complement). -/
def u32ToInt (n : Nat) : Int :=
  if n < 2147483648 then (n : Int) else (n : Int) - 4294967296

/-- The constant `sector_size`. -/
def sector_size : Nat := 512

/-! ## Packed struct layouts -/

/-- Offset of field `f` in a packed struct: the widths of the fields before it. -/
def offsetOf {α : Type} [DecidableEq α] : List (α × Nat) → α → Nat
  | [], _ => 0
  | (g, w) :: rest, f => if g = f then 0 else w + offsetOf rest f

/-- Width of field `f` in a packed struct. -/
def widthOf {α : Type} [DecidableEq α] : List (α × Nat) → α → Nat
  | [], _ => 0
  | (g, w) :: rest, f => if g = f then w else widthOf rest f

/-- Size of a packed struct: the sum of its field widths. -/
def structSize {α : Type} (l : List (α × Nat)) : Nat :=
  (l.map Prod.snd).sum

/-- Field names of `ExtendedBiosParameterBlock`. -/
inductive EbpbField
  | bytes_per_sector | sectors_per_cluster | num_reserved_sectors | num_FATs
  | _unused_num_root_entries | _unused_num_sectors_short | media_type
  | sectors_per_FAT16 | _unused_sectors_per_track | _unused_num_heads
  | _unused_num_hidden_sectors | _unused_num_sectors_long
  | sectors_per_FAT32 | _unused_drive_descriptor | _unused_version
  | root_dir_cluster | _unused_fs_info_sector_num | _unused_boot_copy_sector_num
  | _unused_reserved_zero | _unused_drive_num | _unused_flags
  | _unused_extended_signature | volume_id | volume_label | fs_type
  deriving DecidableEq, Repr

/-- The packed struct `ExtendedBiosParameterBlock` (`ebpb_t`). -/
def ebpb_t : List (EbpbField × Nat) :=
  [ (.bytes_per_sector, 2), (.sectors_per_cluster, 1), (.num_reserved_sectors, 2),
    (.num_FATs, 1), (._unused_num_root_entries, 2), (._unused_num_sectors_short, 2),
    (.media_type, 1), (.sectors_per_FAT16, 2), (._unused_sectors_per_track, 2),
    (._unused_num_heads, 2), (._unused_num_hidden_sectors, 4),
    (._unused_num_sectors_long, 4),
    (.sectors_per_FAT32, 4), (._unused_drive_descriptor, 2), (._unused_version, 2),
    (.root_dir_cluster, 4), (._unused_fs_info_sector_num, 2),
    (._unused_boot_copy_sector_num, 2), (._unused_reserved_zero, 12),
    (._unused_drive_num, 1), (._unused_flags, 1), (._unused_extended_signature, 1),
    (.volume_id, 4), (.volume_label, 11), (.fs_type, 8) ]

/-- Field names of `MBRPartitionEntry`. -/
inductive MbrpeField
  | boot_flag | CHS_begin | type_code | CHS_end | LBA_begin | num_sectors
  deriving DecidableEq, Repr

/-- The packed struct `MBRPartitionEntry` (`mbrpe_t`). -/
def mbrpe_t : List (MbrpeField × Nat) :=
  [ (.boot_flag, 1), (.CHS_begin, 3), (.type_code, 1), (.CHS_end, 3),
    (.LBA_begin, 4), (.num_sectors, 4) ]

/-- Field names of `MasterBootRecord`. -/
inductive MbrField
  | dummy_jmp | oem_name | ebpb | _unused_boot_code | partition_entry | fs_signature
  deriving DecidableEq, Repr

/-- The packed struct `MasterBootRecord` (`mbr_t`). -/
def mbr_t : List (MbrField × Nat) :=
  [ (.dummy_jmp, 3), (.oem_name, 8), (.ebpb, structSize ebpb_t),
    (._unused_boot_code, 356), (.partition_entry, 4 * structSize mbrpe_t),
    (.fs_signature, 2) ]

/-- The integer field `mbr->ebpb.f`. -/
def mbr_ebpb (first_sector : List (Fin 256)) (f : EbpbField) : Nat :=
  readLE first_sector (offsetOf mbr_t .ebpb + offsetOf ebpb_t f) (widthOf ebpb_t f)

/-- The array field `mbr->ebpb.f`, as its bytes. -/
def mbr_ebpb_bytes (first_sector : List (Fin 256)) (f : EbpbField) : List (Fin 256) :=
  (List.range (widthOf ebpb_t f)).map
    (fun i => first_sector.getD (offsetOf mbr_t .ebpb + offsetOf ebpb_t f + i) 0)

/-- The integer field `mbr->partition_entry[k].f`. -/
def mbr_partition_entry (first_sector : List (Fin 256)) (k : Nat) (f : MbrpeField) : Nat :=
  readLE first_sector
    (offsetOf mbr_t .partition_entry + k * structSize mbrpe_t + offsetOf mbrpe_t f)
    (widthOf mbrpe_t f)

/-- The integer field `mbr->fs_signature`. -/
def mbr_fs_signature (first_sector : List (Fin 256)) : Nat :=
  readLE first_sector (offsetOf mbr_t .fs_signature) (widthOf mbr_t .fs_signature)

/-! ## class FAT32 -/

/-- The data members of `class FAT32`. -/
structure FAT32 where
  sectors_per_cluster_ : Nat
  num_reserved_sectors_ : Nat
  num_FATs_ : Nat
  sectors_per_FAT32_ : Nat
  root_dir_cluster_ : Nat
  root_sector_ : Nat
  bytes_per_sector_ : Nat
  volume_id_ : Nat
  volume_label_ : List (Fin 256)
  fs_type_ : List (Fin 256)
  fs_signature_ : Nat
  partition_offset_ : Nat
  deriving DecidableEq, Repr

namespace FAT32

/-- The member `int start_sector_for_cluster(int cluster_num)`; the one member
it reads, `sectors_per_cluster_`, is its first argument. -/
def start_sector_for_cluster (sectors_per_cluster_ : Nat) (cluster_num : Int) : Int :=
  toInt32 (toInt32 (cluster_num - 2) * (sectors_per_cluster_ : Int))

/-- The local `partition_offset_from_reserved` of the constructor. -/
def partition_offset_from_reserved (first_sector : List (Fin 256)) : Nat :=
  mbr_partition_entry first_sector 0 .LBA_begin

/-- The constructor `FAT32(uint8_t* first_sector)`. -/
def ctor (first_sector : List (Fin 256)) : FAT32 :=
  let sectors_per_cluster_ := mbr_ebpb first_sector .sectors_per_cluster
  let num_reserved_sectors_ := mbr_ebpb first_sector .num_reserved_sectors
  let num_FATs_ := mbr_ebpb first_sector .num_FATs
  let sectors_per_FAT32_ := mbr_ebpb first_sector .sectors_per_FAT32
  let root_dir_cluster_ := mbr_ebpb first_sector .root_dir_cluster
  let FAT_sectors_start :=
    (num_reserved_sectors_ + partition_offset_from_reserved first_sector) % 4294967296
  let total_num_FAT_sectors := (num_FATs_ * sectors_per_FAT32_) % 4294967296
  let data_sectors_start := (FAT_sectors_start + total_num_FAT_sectors) % 4294967296
  let root_offset_from_data :=
    toU32 (start_sector_for_cluster sectors_per_cluster_
      (u32ToInt (mbr_ebpb first_sector .root_dir_cluster)))
  { sectors_per_cluster_ := sectors_per_cluster_
    num_reserved_sectors_ := num_reserved_sectors_
    num_FATs_ := num_FATs_
    sectors_per_FAT32_ := sectors_per_FAT32_
    root_dir_cluster_ := root_dir_cluster_
    root_sector_ := (data_sectors_start + root_offset_from_data) % 4294967296
    bytes_per_sector_ := mbr_ebpb first_sector .bytes_per_sector
    volume_id_ := mbr_ebpb first_sector .volume_id
    volume_label_ := mbr_ebpb_bytes first_sector .volume_label
    fs_type_ := mbr_ebpb_bytes first_sector .fs_type
    fs_signature_ := mbr_fs_signature first_sector
    partition_offset_ := offsetOf mbr_t .partition_entry % 18446744073709551616 }

/-- The member `bool isValid()`. -/
def isValid (g : FAT32) : Bool :=
  g.bytes_per_sector_ == sector_size &&
    g.fs_signature_ == 0xAA55 &&
    g.partition_offset_ == 446

/-- The member `uint32_t root_sector()`. -/
def root_sector (g : FAT32) : Nat := g.root_sector_

/-- The member `uintptr_t root_address()`: `uint32_t * size_t`, in 64 bits. -/
def root_address (g : FAT32) : Nat :=
  (g.root_sector * sector_size) % 18446744073709551616

/-- The member `uint32_t subfolder_sector(int cluster_num)`: `uint32_t + int`,
in `uint32_t`. -/
def subfolder_sector (g : FAT32) (cluster_num : Int) : Nat :=
  toU32 ((g.root_sector : Int) + start_sector_for_cluster g.sectors_per_cluster_ cluster_num)

/-- The member `uintptr_t subfolder_address(int cluster_num)`, whose body calls
`subfolder_address` itself; `fuel` bounds the depth of the calls, and `none`
is a call that has not returned within it. -/
def subfolder_address (g : FAT32) (cluster_num : Int) : Nat → Option Nat
  | 0 => none
  | fuel + 1 =>
    (subfolder_address g cluster_num fuel).map
      (fun r => (r * sector_size) % 18446744073709551616)

end FAT32

/-- A boot sector: `sets` written over 512 zero bytes. -/
def sectorOf (sets : List (Nat × Fin 256)) : List (Fin 256) :=
  sets.foldl (fun buf s => buf.set s.1 s.2) (List.replicate 512 0)

/-- The boot sector of the end-to-end scenario: 512 bytes per sector, 4 sectors
per cluster, 32 reserved sectors, 2 FATs of 1000 sectors, root cluster 2,
first partition at LBA 2048, signature 0xAA55. -/
def scenarioSector : List (Fin 256) :=
  sectorOf [(11, 0x00), (12, 0x02), (13, 4), (14, 32), (16, 2),
    (36, 0xE8), (37, 0x03), (44, 2), (455, 0x08), (510, 0x55), (511, 0xAA)]

/-- The closed form of the root sector, with every field read at its documented
offset: reserved sectors (u16 at 0x0E) + LBA start of partition entry 0 (u32 at
454) + FAT count (byte 0x10) × sectors per FAT32 (u32 at 0x24) + (root cluster
(u32 at 0x2C) − 2) × sectors per cluster (byte 0x0D). -/
def rootSectorClosedForm (b : List (Fin 256)) : Int :=
  (readLE b 0x0E 2 : Int) + (readLE b 454 4 : Int)
    + (byteAt b 0x10 : Int) * (readLE b 0x24 4 : Int)
    + ((readLE b 0x2C 4 : Int) - 2) * (byteAt b 0x0D : Int)

/-- The scenario's boot sector with its first partition moved to LBA
`2048 + 2^24`, so that the root directory lies beyond 4 GiB. -/
def farSector : List (Fin 256) :=
  sectorOf [(11, 0x00), (12, 0x02), (13, 4), (14, 32), (16, 2),
    (36, 0xE8), (37, 0x03), (44, 2), (455, 0x08), (457, 0x01), (510, 0x55), (511, 0xAA)]

/-! ## Loading the boot sector (`main`) -/

/-- The contents of the global `filebuf` after `main` has read the boot sector
of the image into it: `filebuf` is `sector_size` zero bytes, and the read stores
the (at most `sector_size`) bytes the image has over its beginning. -/
def loadSector (image : List (Fin 256)) : List (Fin 256) :=
  image.take sector_size ++ List.replicate (sector_size - (image.take sector_size).length) 0

/-- The errors of parsing a boot sector. -/
inductive ParseError
  | MalformedBootSector
  deriving DecidableEq, Repr

/-- Parsing as the source does it: `main` loads the sector and hands `filebuf`
to the constructor.  Neither step has a failing path (the constructor takes a
bare pointer and has no length to check), so the result is always `ok`. -/
def parse (image : List (Fin 256)) : Except ParseError FAT32 :=
  Except.ok (FAT32.ctor (loadSector image))

/-! ## class DirectoryEntry -/

/-- Field names of `ShortNameDirectoryEntry`. -/
inductive SneField
  | shortname | attributes | _unused1 | cluster_high | _unused2 | cluster_low | size
  deriving DecidableEq, Repr

/-- The packed struct `ShortNameDirectoryEntry` (`shortname_entry_t`). -/
def shortname_entry_t : List (SneField × Nat) :=
  [ (.shortname, 11), (.attributes, 1), (._unused1, 8), (.cluster_high, 2),
    (._unused2, 4), (.cluster_low, 2), (.size, 4) ]

/-- Field names of `LongNameDirectoryEntry`. -/
inductive LneField
  | sequence | longname1 | attributes | zero1 | checksum | longname2 | zero2 | longname3
  deriving DecidableEq, Repr

/-- The packed struct `LongNameDirectoryEntry` (`longname_entry_t`). -/
def longname_entry_t : List (LneField × Nat) :=
  [ (.sequence, 1), (.longname1, 10), (.attributes, 1), (.zero1, 1), (.checksum, 1),
    (.longname2, 12), (.zero2, 2), (.longname3, 2) ]

/-- The kinds of line `printDirectoryEntry` prints. -/
inductive EntryKind
  | file | longFileName | directory
  deriving DecidableEq, Repr

/-- What `printDirectoryEntry` prints for one record: the kind of the line, the
bytes `%s` prints of the name buffer, and the number printed for a directory:
`folderCluster()`, a `uint32_t`, through `%d`, that is, read as a signed 32-bit
`int`. -/
structure Printed where
  kind : EntryKind
  name : List (Fin 256)
  cluster : Option Int
  deriving DecidableEq, Repr

namespace DirectoryEntry

/-- The constant `DirectoryEntry::size`. -/
def size : Nat := 32

/-- The integer field `entry_->sne.f`. -/
def sne (entry : List (Fin 256)) (f : SneField) : Nat :=
  readLE entry (offsetOf shortname_entry_t f) (widthOf shortname_entry_t f)

/-- The member `uint8_t attributes()`. -/
def attributes (entry : List (Fin 256)) : Nat := sne entry .attributes

/-- The member `uint32_t filesize()`. -/
def filesize (entry : List (Fin 256)) : Nat := sne entry .size

/-- The member `uint32_t folderCluster()`: `(cluster_high << 16) | cluster_low`
in `int`, returned as `uint32_t`, as the bit pattern of the result. -/
def folderCluster (entry : List (Fin 256)) : Nat :=
  ((sne entry .cluster_high * 65536) % 4294967296) ||| sne entry .cluster_low

/-- The member `bool isFile()`. -/
def isFile (entry : List (Fin 256)) : Bool :=
  (attributes entry &&& 0x1E) == 0x00 && filesize entry != 0

/-- The member `bool isDirectory()`. -/
def isDirectory (entry : List (Fin 256)) : Bool :=
  (attributes entry &&& 0x10) == 0x10

/-- The member `bool isLongFileName()`. -/
def isLongFileName (entry : List (Fin 256)) : Bool :=
  (attributes entry &&& 0x0F) == 0x0F

/-- The byte the long-name loop of `appendName` reads at index `i`: from
`longname3`, `longname2` or `longname1`, as `i` falls. -/
def longNameByte (entry : List (Fin 256)) (i : Nat) : Fin 256 :=
  if i ≥ widthOf longname_entry_t .longname1 + widthOf longname_entry_t .longname2 then
    entry.getD (offsetOf longname_entry_t .longname3
      + (i - widthOf longname_entry_t .longname1 - widthOf longname_entry_t .longname2)) 0
  else if i ≥ widthOf longname_entry_t .longname1 then
    entry.getD (offsetOf longname_entry_t .longname2
      + (i - widthOf longname_entry_t .longname1)) 0
  else
    entry.getD (offsetOf longname_entry_t .longname1 + i) 0

/-- The long-name loop of `appendName`, `for (i; i < sizeLFN; i += 2)`: `pos` is
how far `namebuf` has advanced, `steps` bounds the iterations left. -/
def appendLongName (entry : List (Fin 256)) (sizeLFN : Nat) :
    Nat → Nat → Nat → List (Fin 256) → List (Fin 256)
  | 0, _, _, namebuf => namebuf
  | steps + 1, i, pos, namebuf =>
    if i < sizeLFN then
      let namebuf1 := namebuf.set pos (longNameByte entry i)
      if longNameByte entry i = 0 then namebuf1
      else appendLongName entry sizeLFN steps (i + 2) (pos + 1) namebuf1
    else namebuf

/-- The short-name loop of `appendName`: `shortname[i]` to `namebuf[i]` for
every `i` below `sizeof(sne->shortname)`. -/
def appendShortName (entry : List (Fin 256)) (namebuf : List (Fin 256)) : List (Fin 256) :=
  (List.range (widthOf shortname_entry_t .shortname)).foldl
    (fun buf i => buf.set i (entry.getD (offsetOf shortname_entry_t .shortname + i) 0)) namebuf

/-- The member `void appendName(char* namebuf)`: the buffer after the call;
`none` is the null pointer, for which nothing is done. -/
def appendName (entry : List (Fin 256)) : Option (List (Fin 256)) → Option (List (Fin 256))
  | none => none
  | some namebuf =>
    if isLongFileName entry then
      let sizeLFN := widthOf longname_entry_t .longname1 + widthOf longname_entry_t .longname2
        + widthOf longname_entry_t .longname3
      some (appendLongName entry sizeLFN sizeLFN 0 0 namebuf)
    else
      some (appendShortName entry namebuf)

end DirectoryEntry

/-- The bytes `printf("%s", buf)` prints: those before the first zero byte. -/
def cString (buf : List (Fin 256)) : List (Fin 256) :=
  buf.takeWhile (fun c => c != 0)

/-- The function `printDirectoryEntry`: `none` when nothing is printed. -/
def printDirectoryEntry (de : List (Fin 256)) : Option Printed :=
  let namebuf : List (Fin 256) := List.replicate 32 0
  let printedName := cString ((DirectoryEntry.appendName de (some namebuf)).getD namebuf)
  if DirectoryEntry.isFile de then
    some { kind := .file, name := printedName, cluster := none }
  else if DirectoryEntry.isLongFileName de then
    some { kind := .longFileName, name := printedName, cluster := none }
  else if DirectoryEntry.isDirectory de then
    some { kind := .directory, name := printedName,
           cluster := some (u32ToInt (DirectoryEntry.folderCluster de)) }
  else none

/-- The classification as the specification words it, in its order of
precedence: long-name fragment if the attribute bits masked `0x0F` equal
`0x0F`; else directory if bit `0x10` is set; else regular file if no bit of
mask `0x1E` is set and the size is nonzero; else neither. -/
def specClassify (attr size : Nat) : Option EntryKind :=
  if attr &&& 0x0F = 0x0F then some .longFileName
  else if attr &&& 0x10 ≠ 0 then some .directory
  else if attr &&& 0x1E = 0 ∧ size ≠ 0 then some .file
  else none

/-- A 32-byte record: `sets` written over 32 zero bytes. -/
def recordOf (sets : List (Nat × Fin 256)) : List (Fin 256) :=
  sets.foldl (fun buf s => buf.set s.1 s.2) (List.replicate 32 0)

/-- A record of a read-only file: attribute byte `0x01`, size 1. -/
def readOnlyFileRecord : List (Fin 256) :=
  recordOf [(0, 0x41), (11, 0x01), (28, 1)]

/-- A record of a directory: attribute byte `0x10`, cluster 3. -/
def directoryRecord : List (Fin 256) :=
  recordOf [(0, 0x44), (11, 0x10), (26, 3)]

/-! ## The directory loop of `main` -/

/-- The directory loop of `main`: `printDirectoryEntry` on each of the
`sector_size / DirectoryEntry::size` records of `filebuf`, in order; the result
is the list of the lines printed. -/
def scanDirectory (filebuf : List (Fin 256)) : List Printed :=
  (List.range (sector_size / DirectoryEntry.size)).filterMap
    (fun i => printDirectoryEntry
      ((filebuf.drop (i * DirectoryEntry.size)).take DirectoryEntry.size))

/-- The bytes at the even offsets of the three name sub-fields of a long-name
record (`longname1` at 1, `longname2` at 14, `longname3` at 28): the low bytes
of its little-endian name code units. -/
def lowNameBytes (de : List (Fin 256)) : List (Fin 256) :=
  [1, 3, 5, 7, 9, 14, 16, 18, 20, 22, 24, 28].map (fun k => de.getD k 0)

/-- The bytes the long-name loop writes when the bytes it reads are `l`: those up
to the first zero byte, that zero byte included. -/
def throughZero : List (Fin 256) → List (Fin 256)
  | [] => []
  | x :: xs => if x = 0 then [x] else x :: throughZero xs

/-- The name code units of a long-name record as the specification lays them
out: the little-endian 16-bit units of the 10 bytes of name at 1, of the 12
bytes of name at 14 and of the 2 bytes of name at 28. -/
def specNameUnits (de : List (Fin 256)) : List Nat :=
  [1, 3, 5, 7, 9, 14, 16, 18, 20, 22, 24, 28].map (fun k => readLE de k 2)

/-- The name of a long-name record as the specification words it: its name code
units in order, cut off before the first null (0x0000) or padding (0xFFFF)
unit. -/
def specFragmentName (de : List (Fin 256)) : List Nat :=
  (specNameUnits de).takeWhile (fun u => u != 0x0000 && u != 0xFFFF)

/-- The bytes the long-name loop of `appendName` reads when it meets no zero
byte: `longNameByte` at `i`, `i + 2`, ... below `sizeLFN`, for at most `steps`
iterations. -/
def longNameReads (entry : List (Fin 256)) (sizeLFN : Nat) : Nat → Nat → List (Fin 256)
  | 0, _ => []
  | steps + 1, i =>
    if i < sizeLFN then DirectoryEntry.longNameByte entry i :: longNameReads entry sizeLFN steps (i + 2)
    else []

/-- The boot sector of the scenario with root-directory cluster 3. -/
def rootCluster3Sector : List (Fin 256) :=
  scenarioSector.set 44 3

/-- A short-name record: name `FILE1   TXT`, attribute byte `0x20`, size 100. -/
def file1Record : List (Fin 256) :=
  recordOf [(0, 0x46), (1, 0x49), (2, 0x4C), (3, 0x45), (4, 0x31), (5, 0x20), (6, 0x20),
    (7, 0x20), (8, 0x54), (9, 0x58), (10, 0x54), (11, 0x20), (28, 100)]

/-- The bytes of `FILE1   TXT`. -/
def file1Name : List (Fin 256) :=
  [0x46, 0x49, 0x4C, 0x45, 0x31, 0x20, 0x20, 0x20, 0x54, 0x58, 0x54]

/-- The bytes of `FILE1.TXT`. -/
def file1DottedName : List (Fin 256) :=
  [0x46, 0x49, 0x4C, 0x45, 0x31, 0x2E, 0x54, 0x58, 0x54]

/-- A long-name fragment (sequence byte `0x41`, attribute byte `0x0F`) whose
twelve name code units spell `LONGFILE.TXT`. -/
def longfileFragment : List (Fin 256) :=
  recordOf [(0, 0x41), (1, 0x4C), (3, 0x4F), (5, 0x4E), (7, 0x47), (9, 0x46), (11, 0x0F),
    (14, 0x49), (16, 0x4C), (18, 0x45), (20, 0x2E), (22, 0x54), (24, 0x58), (28, 0x54)]

/-- The bytes of `LONGFILE.TXT`. -/
def longfileName : List (Fin 256) :=
  [0x4C, 0x4F, 0x4E, 0x47, 0x46, 0x49, 0x4C, 0x45, 0x2E, 0x54, 0x58, 0x54]

/-- A long-name fragment with thirteen non-null name code units, the letters
`A` to `M`, at the offsets of the on-disk format (five at 1, six at 14, two
at 28). -/
def thirteenUnitFragment : List (Fin 256) :=
  recordOf [(0, 0x41), (1, 0x41), (3, 0x42), (5, 0x43), (7, 0x44), (9, 0x45), (11, 0x0F),
    (14, 0x46), (16, 0x47), (18, 0x48), (20, 0x49), (22, 0x4A), (24, 0x4B), (28, 0x4C),
    (30, 0x4D)]

/-- A long-name fragment whose name code units are `A` (0x0041), then the
padding unit 0xFFFF, then null units. -/
def paddedFragment : List (Fin 256) :=
  recordOf [(0, 0x41), (1, 0x41), (3, 0xFF), (4, 0xFF), (11, 0x0F)]

/-- The record `FILE1   TXT` with the deletion marker `0xE5` as its first byte. -/
def deletedFileRecord : List (Fin 256) :=
  file1Record.set 0 0xE5

/-- A record with cluster-high `0x8000` and cluster-low 3, attribute `0x10`. -/
def highClusterRecord : List (Fin 256) :=
  recordOf [(0, 0x44), (11, 0x10), (21, 0x80), (26, 3)]

/-- The name `appendName` produces for a record handed the zeroed 32-byte buffer
of `printDirectoryEntry`: the bytes `%s` then prints. -/
def producedName (de : List (Fin 256)) : List (Fin 256) :=
  cString ((DirectoryEntry.appendName de (some (List.replicate 32 0))).getD
    (List.replicate 32 0))

/-- The record in slot `k` of a directory sector. -/
def recordAt (filebuf : List (Fin 256)) (k : Nat) : List (Fin 256) :=
  (filebuf.drop (k * DirectoryEntry.size)).take DirectoryEntry.size

/-- A directory sector whose only non-zero record is `FILE1   TXT`, in slot 3. -/
def file1InSlot3Sector : List (Fin 256) :=
  List.replicate 96 0 ++ file1Record ++ List.replicate 384 0

/-! ## Machine-integer facts -/

theorem byteAt_lt (buf : List (Fin 256)) (off : Nat) : byteAt buf off < 256 :=
  (buf.getD off 0).isLt

theorem readLE_lt (buf : List (Fin 256)) (n off : Nat) : readLE buf off n < 256 ^ n := by
  induction n generalizing off with
  | zero => simp [readLE]
  | succ n ih =>
    have h1 := byteAt_lt buf off
    have h2 := ih (off + 1)
    simp only [readLE, pow_succ]
    omega

theorem readLE_one (buf : List (Fin 256)) (off : Nat) : readLE buf off 1 = byteAt buf off := by
  simp [readLE]

theorem toU32_cast (x : Int) : ((toU32 x : Nat) : Int) = x % 4294967296 :=
  Int.toNat_of_nonneg (Int.emod_nonneg _ (by norm_num))

theorem toU32_lt (x : Int) : toU32 x < 4294967296 := by
  have h := toU32_cast x
  omega

theorem toInt32_modEq (x : Int) : toInt32 x ≡ x [ZMOD 4294967296] := by
  have h : (x + 2147483648) % 4294967296 - 2147483648 ≡ x + 2147483648 - 2147483648
      [ZMOD 4294967296] := (Int.mod_modEq _ _).sub_right _
  simpa [toInt32] using h

theorem toInt32_range (x : Int) : -2147483648 ≤ toInt32 x ∧ toInt32 x < 2147483648 := by
  unfold toInt32
  omega

theorem toInt32_of_range (x : Int) (h1 : -2147483648 ≤ x) (h2 : x < 2147483648) :
    toInt32 x = x := by
  unfold toInt32
  omega

theorem u32ToInt_modEq (n : Nat) : u32ToInt n ≡ (n : Int) [ZMOD 4294967296] := by
  unfold u32ToInt Int.ModEq
  split <;> omega

theorem u32ToInt_of_lt (n : Nat) (h : n < 2147483648) : u32ToInt n = (n : Int) := by
  unfold u32ToInt
  simp [h]

theorem start_sector_for_cluster_modEq (s : Nat) (c : Int) :
    FAT32.start_sector_for_cluster s c ≡ (c - 2) * (s : Int) [ZMOD 4294967296] :=
  (toInt32_modEq _).trans ((toInt32_modEq _).mul_right _)

theorem ctor_root_sector (b : List (Fin 256)) :
    (FAT32.ctor b).root_sector =
      (((mbr_ebpb b .num_reserved_sectors + FAT32.partition_offset_from_reserved b) % 4294967296
          + (mbr_ebpb b .num_FATs * mbr_ebpb b .sectors_per_FAT32) % 4294967296) % 4294967296
        + toU32 (FAT32.start_sector_for_cluster (mbr_ebpb b .sectors_per_cluster)
            (u32ToInt (mbr_ebpb b .root_dir_cluster)))) % 4294967296 :=
  rfl

theorem root_sum_mod (a b t : Nat) (r y : Int) (h : r % 4294967296 = y % 4294967296) :
    (((((a + b) % 4294967296 + t % 4294967296) % 4294967296 + toU32 r) % 4294967296 : Nat) : Int)
      = ((a : Int) + (b : Int) + (t : Int) + y) % 4294967296 := by
  have h1 := toU32_cast r
  omega

/-- The constructor's root sector, as a residue of the integers it is made of. -/
theorem ctor_root_sector_modEq (b : List (Fin 256)) :
    ((FAT32.ctor b).root_sector : Int) =
      ((mbr_ebpb b .num_reserved_sectors : Int) + (FAT32.partition_offset_from_reserved b : Int)
        + (mbr_ebpb b .num_FATs : Int) * (mbr_ebpb b .sectors_per_FAT32 : Int)
        + ((mbr_ebpb b .root_dir_cluster : Int) - 2) * (mbr_ebpb b .sectors_per_cluster : Int))
        % 4294967296 := by
  have h1 := start_sector_for_cluster_modEq (mbr_ebpb b .sectors_per_cluster)
    (u32ToInt (mbr_ebpb b .root_dir_cluster))
  have h2 : u32ToInt (mbr_ebpb b .root_dir_cluster) - 2 ≡ (mbr_ebpb b .root_dir_cluster : Int) - 2
      [ZMOD 4294967296] := (u32ToInt_modEq _).sub_right _
  have h3 := h1.trans (h2.mul_right _)
  rw [ctor_root_sector, root_sum_mod _ _ _ _ _ h3, Nat.cast_mul]

/-! ## Fields of the boot sector at their offsets -/

theorem mbr_ebpb_bytes_per_sector (b : List (Fin 256)) :
    mbr_ebpb b .bytes_per_sector = readLE b 0x0B 2 := rfl

theorem mbr_ebpb_sectors_per_cluster (b : List (Fin 256)) :
    mbr_ebpb b .sectors_per_cluster = byteAt b 0x0D := readLE_one b 0x0D

theorem mbr_ebpb_num_reserved_sectors (b : List (Fin 256)) :
    mbr_ebpb b .num_reserved_sectors = readLE b 0x0E 2 := rfl

theorem mbr_ebpb_num_FATs (b : List (Fin 256)) :
    mbr_ebpb b .num_FATs = byteAt b 0x10 := readLE_one b 0x10

theorem mbr_ebpb_sectors_per_FAT32 (b : List (Fin 256)) :
    mbr_ebpb b .sectors_per_FAT32 = readLE b 0x24 4 := rfl

theorem mbr_ebpb_root_dir_cluster (b : List (Fin 256)) :
    mbr_ebpb b .root_dir_cluster = readLE b 0x2C 4 := rfl

theorem partition_offset_from_reserved_eq (b : List (Fin 256)) :
    FAT32.partition_offset_from_reserved b = readLE b 454 4 := rfl

theorem mbr_fs_signature_eq (b : List (Fin 256)) :
    mbr_fs_signature b = readLE b 510 2 := rfl

theorem readLE_two (b : List (Fin 256)) (off : Nat) :
    readLE b off 2 = byteAt b off + 256 * byteAt b (off + 1) := by
  simp [readLE]

theorem readLE_four (b : List (Fin 256)) (off : Nat) :
    readLE b off 4 = byteAt b off + 256 * byteAt b (off + 1) + 65536 * byteAt b (off + 2)
      + 16777216 * byteAt b (off + 3) := by
  simp only [readLE, Nat.add_assoc, Nat.reduceAdd]
  omega

theorem ctor_root_sector_lt (b : List (Fin 256)) :
    (FAT32.ctor b).root_sector < 4294967296 := by
  rw [ctor_root_sector]
  exact Nat.mod_lt _ (by norm_num)

theorem ctor_partition_offset (b : List (Fin 256)) :
    (FAT32.ctor b).partition_offset_ = 446 := rfl

/-! ## The claims on `FAT32` -/

/-- C1 (as amended): for every 512-byte boot sector, `root_sector()` of the
constructed object is the closed form reserved + LBA begin of entry 0 +
FAT count × sectors per FAT32 + (root cluster − 2) × sectors per cluster, taken
modulo `2^32`, and is exactly that integer when it lies in `[0, 2^32)`. -/
theorem C1_root_sector_closed_form (b : List (Fin 256)) (_hb : b.length = 512) :
    ((FAT32.ctor b).root_sector : Int) = rootSectorClosedForm b % 2 ^ 32 ∧
      (0 ≤ rootSectorClosedForm b → rootSectorClosedForm b < 2 ^ 32 →
        ((FAT32.ctor b).root_sector : Int) = rootSectorClosedForm b) := by
  have h := ctor_root_sector_modEq b
  rw [mbr_ebpb_num_reserved_sectors, partition_offset_from_reserved_eq, mbr_ebpb_num_FATs,
    mbr_ebpb_sectors_per_FAT32, mbr_ebpb_root_dir_cluster, mbr_ebpb_sectors_per_cluster] at h
  have e : (2 : Int) ^ 32 = 4294967296 := by norm_num
  rw [e]
  refine ⟨h, fun h0 h1 => ?_⟩
  rw [h]
  exact Int.emod_eq_of_lt h0 h1

/-- C1, witness: the scenario's boot sector (512 bytes per sector, 4 sectors per
cluster, 32 reserved sectors, 2 FATs of 1000 sectors, root cluster 2, LBA begin
2048) has the closed form `32 + 2048 + 2 × 1000 + 0 = 4080`, and that is its
root sector. -/
theorem C1_root_sector_closed_form_witness :
    scenarioSector.length = 512 ∧ rootSectorClosedForm scenarioSector = 4080 ∧
      ((FAT32.ctor scenarioSector).root_sector : Int) = rootSectorClosedForm scenarioSector :=
  ⟨by decide, by decide,
    (C1_root_sector_closed_form scenarioSector (by decide)).2 (by decide) (by decide)⟩

/-- C1, counterexample: the boot sector with bytes-per-sector 512,
sectors-per-cluster 4, 32 reserved sectors, 2 FATs, 1000 sectors per FAT, root
cluster 2 and LBA begin 2048 has root sector 4080, not 4128. -/
theorem C1_scenario_root_sector_not_4128 :
    scenarioSector.length = 512 ∧
      (FAT32.ctor scenarioSector).bytes_per_sector_ = 512 ∧
      (FAT32.ctor scenarioSector).sectors_per_cluster_ = 4 ∧
      (FAT32.ctor scenarioSector).num_reserved_sectors_ = 32 ∧
      (FAT32.ctor scenarioSector).num_FATs_ = 2 ∧
      (FAT32.ctor scenarioSector).sectors_per_FAT32_ = 1000 ∧
      (FAT32.ctor scenarioSector).root_dir_cluster_ = 2 ∧
      FAT32.partition_offset_from_reserved scenarioSector = 2048 ∧
      (FAT32.ctor scenarioSector).fs_signature_ = 0xAA55 ∧
      (FAT32.ctor scenarioSector).root_sector = 4080 ∧
      (FAT32.ctor scenarioSector).root_sector ≠ 4128 := by
  decide

/-- C2: for every 512-byte boot sector, `isValid()` is true exactly when the
parsed bytes-per-sector is 512, the parsed signature is 0xAA55 and the
partition-table offset is 446; it is false as soon as one of the three fails. -/
theorem C2_isValid_iff (b : List (Fin 256)) (_hb : b.length = 512) :
    ((FAT32.ctor b).isValid = true ↔
        ((FAT32.ctor b).bytes_per_sector_ = 512 ∧ (FAT32.ctor b).fs_signature_ = 0xAA55 ∧
          (FAT32.ctor b).partition_offset_ = 446)) ∧
      ((FAT32.ctor b).isValid = false ↔
        ((FAT32.ctor b).bytes_per_sector_ ≠ 512 ∨ (FAT32.ctor b).fs_signature_ ≠ 0xAA55 ∨
          (FAT32.ctor b).partition_offset_ ≠ 446)) := by
  have h : (FAT32.ctor b).isValid = true ↔
      ((FAT32.ctor b).bytes_per_sector_ = 512 ∧ (FAT32.ctor b).fs_signature_ = 0xAA55 ∧
        (FAT32.ctor b).partition_offset_ = 446) := by
    simp only [FAT32.isValid, sector_size, Bool.and_eq_true, beq_iff_eq, and_assoc]
  refine ⟨h, ?_⟩
  rw [← Bool.not_eq_true, h]
  tauto

/-- C2, witness: the scenario's boot sector is valid, and with its signature
byte changed it is not. -/
theorem C2_isValid_iff_witness :
    scenarioSector.length = 512 ∧ (FAT32.ctor scenarioSector).isValid = true ∧
      (FAT32.ctor (scenarioSector.set 510 0)).isValid = false :=
  ⟨by decide,
    (C2_isValid_iff scenarioSector (by decide)).1.2 ⟨by decide, by decide, by decide⟩,
    (C2_isValid_iff (scenarioSector.set 510 0) (by decide)).2.2 (Or.inr (Or.inl (by decide)))⟩

/-- C3: for every 512-byte boot sector the constructor reads each field at its
fixed offset, little-endian: bytes-per-sector at 0x0B (2 bytes),
sectors-per-cluster at 0x0D, reserved sectors at 0x0E (2 bytes), FAT count at
0x10, sectors-per-FAT32 at 0x24 (4 bytes), root cluster at 0x2C (4 bytes), the
partition start in bytes 454..457 (446 + 8), the signature in bytes 510..511;
and the packed layout is 512 bytes long. -/
theorem C3_fields_at_documented_offsets (b : List (Fin 256)) (_hb : b.length = 512) :
    (FAT32.ctor b).bytes_per_sector_ = byteAt b 0x0B + 256 * byteAt b 0x0C ∧
      (FAT32.ctor b).sectors_per_cluster_ = byteAt b 0x0D ∧
      (FAT32.ctor b).num_reserved_sectors_ = byteAt b 0x0E + 256 * byteAt b 0x0F ∧
      (FAT32.ctor b).num_FATs_ = byteAt b 0x10 ∧
      (FAT32.ctor b).sectors_per_FAT32_ =
        byteAt b 0x24 + 256 * byteAt b 0x25 + 65536 * byteAt b 0x26
          + 16777216 * byteAt b 0x27 ∧
      (FAT32.ctor b).root_dir_cluster_ =
        byteAt b 0x2C + 256 * byteAt b 0x2D + 65536 * byteAt b 0x2E
          + 16777216 * byteAt b 0x2F ∧
      FAT32.partition_offset_from_reserved b =
        byteAt b 454 + 256 * byteAt b 455 + 65536 * byteAt b 456
          + 16777216 * byteAt b 457 ∧
      offsetOf mbr_t .partition_entry + 0 * structSize mbrpe_t
        + offsetOf mbrpe_t .LBA_begin = 446 + 8 ∧
      (FAT32.ctor b).fs_signature_ = byteAt b 510 + 256 * byteAt b 511 ∧
      offsetOf mbr_t .fs_signature = 510 ∧
      structSize mbr_t = 512 := by
  refine ⟨?_, ?_, ?_, ?_, ?_, ?_, ?_, by decide, ?_, by decide, by decide⟩
  · exact (mbr_ebpb_bytes_per_sector b).trans (readLE_two b _)
  · exact mbr_ebpb_sectors_per_cluster b
  · exact (mbr_ebpb_num_reserved_sectors b).trans (readLE_two b _)
  · exact mbr_ebpb_num_FATs b
  · exact (mbr_ebpb_sectors_per_FAT32 b).trans (readLE_four b _)
  · exact (mbr_ebpb_root_dir_cluster b).trans (readLE_four b _)
  · exact (partition_offset_from_reserved_eq b).trans (readLE_four b _)
  · exact (mbr_fs_signature_eq b).trans (readLE_two b _)

/-- C3, witness: in the scenario's boot sector the sixteen-bit field at 0x0B
reads 512 from the bytes `00 02`. -/
theorem C3_fields_at_documented_offsets_witness :
    scenarioSector.length = 512 ∧ byteAt scenarioSector 0x0B = 0 ∧
      byteAt scenarioSector 0x0C = 2 ∧
      (FAT32.ctor scenarioSector).bytes_per_sector_ =
        byteAt scenarioSector 0x0B + 256 * byteAt scenarioSector 0x0C :=
  ⟨by decide, by decide, by decide,
    (C3_fields_at_documented_offsets scenarioSector (by decide)).1⟩

theorem start_sector_for_cluster_two (s : Nat) : FAT32.start_sector_for_cluster s 2 = 0 := by
  have h : toInt32 0 = 0 := by decide
  simp [FAT32.start_sector_for_cluster, h]

/-- C4 (as amended): for a cluster number `c` with `2 ≤ c < 2^32` and a
sectors-per-cluster value `s ≤ 255` whose product `(c − 2) × s` is below `2^31`,
`start_sector_for_cluster(c)` is exactly `(c − 2) × s`. -/
theorem C4_start_sector_exact_below_2_31 (c s : Nat) (h2 : 2 ≤ c) (_hc : c < 2 ^ 32)
    (_hs : s ≤ 255) (hp : (c - 2) * s < 2 ^ 31) :
    FAT32.start_sector_for_cluster s (u32ToInt c) = ((c : Int) - 2) * (s : Int) := by
  have h1 : FAT32.start_sector_for_cluster s (u32ToInt c) ≡ ((c : Int) - 2) * (s : Int)
      [ZMOD 4294967296] :=
    (start_sector_for_cluster_modEq s _).trans (((u32ToInt_modEq c).sub_right 2).mul_right _)
  have h3 := toInt32_range (toInt32 (u32ToInt c - 2) * (s : Int))
  have h4 : ((c : Int) - 2) * (s : Int) = (((c - 2) * s : Nat) : Int) := by
    push_cast [Nat.cast_sub h2]
    ring
  have h5 : (((c - 2) * s : Nat) : Int) < 2147483648 := by
    have : (c - 2) * s < 2147483648 := by simpa using hp
    exact_mod_cast this
  unfold Int.ModEq at h1
  rw [h4] at h1 ⊢
  unfold FAT32.start_sector_for_cluster at h1 ⊢
  omega

/-- C4, witness: cluster 10 with 4 sectors per cluster starts at sector 32. -/
theorem C4_start_sector_exact_below_2_31_witness :
    (10 - 2) * 4 < 2 ^ 31 ∧
      FAT32.start_sector_for_cluster 4 (u32ToInt 10) = (((10 : Nat) : Int) - 2) * ((4 : Nat) : Int) ∧
      FAT32.start_sector_for_cluster 4 (u32ToInt 10) = 32 :=
  ⟨by decide,
    C4_start_sector_exact_below_2_31 10 4 (by decide) (by decide) (by decide) (by decide),
    by decide⟩

/-- C4, counterexample: for the cluster number `2^32 − 1` and one sector per
cluster the function returns `−3`, not `(2^32 − 1 − 2) × 1 = 4294967293`; and
for cluster `2^30 + 2` with 4 sectors per cluster it returns 0, not `2^32`. -/
theorem C4_start_sector_not_exact :
    FAT32.start_sector_for_cluster 1 (u32ToInt 4294967295) = -3 ∧
      FAT32.start_sector_for_cluster 1 (u32ToInt 4294967295)
        ≠ (((4294967295 : Nat) : Int) - 2) * ((1 : Nat) : Int) ∧
      FAT32.start_sector_for_cluster 4 (u32ToInt 1073741826) = 0 ∧
      FAT32.start_sector_for_cluster 4 (u32ToInt 1073741826)
        ≠ (((1073741826 : Nat) : Int) - 2) * ((4 : Nat) : Int) := by
  decide

/-- C5: for every parsed volume and every cluster number `c ≥ 2` (an `int`),
`subfolder_sector(c)` is `root_sector() + start_sector_for_cluster(c)` taken as
a 32-bit unsigned value, and `subfolder_sector(2)` is `root_sector()`. -/
theorem C5_subfolder_sector (b : List (Fin 256)) (_hb : b.length = 512) (c : Int)
    (_h2 : 2 ≤ c) (_h3 : c < 2 ^ 31) :
    ((FAT32.ctor b).subfolder_sector c : Int) =
        (((FAT32.ctor b).root_sector : Int)
          + FAT32.start_sector_for_cluster (FAT32.ctor b).sectors_per_cluster_ c) % 2 ^ 32 ∧
      (FAT32.ctor b).subfolder_sector 2 = (FAT32.ctor b).root_sector := by
  have e : (2 : Int) ^ 32 = 4294967296 := by norm_num
  constructor
  · rw [e]
    exact toU32_cast _
  · have h := ctor_root_sector_lt b
    have h1 := toU32_cast ((FAT32.ctor b).root_sector : Int)
    unfold FAT32.subfolder_sector
    rw [start_sector_for_cluster_two, add_zero]
    omega

/-- C5, witness: in the scenario's volume (root sector 4080, 4 sectors per
cluster) the directory at cluster 5 starts at sector 4092. -/
theorem C5_subfolder_sector_witness :
    scenarioSector.length = 512 ∧ (FAT32.ctor scenarioSector).subfolder_sector 5 = 4092 ∧
      (FAT32.ctor scenarioSector).subfolder_sector 2 = (FAT32.ctor scenarioSector).root_sector :=
  ⟨by decide, by decide,
    (C5_subfolder_sector scenarioSector (by decide) 5 (by decide) (by decide)).2⟩

/-- C6 (the code at the failing input): `subfolder_address` calls itself before
it does anything else, so no depth of calls lets it return a value, for any
volume and any cluster number. -/
theorem C6_subfolder_address_never_returns (g : FAT32) (cluster_num : Int) (fuel : Nat) :
    g.subfolder_address cluster_num fuel = none := by
  induction fuel with
  | zero => rfl
  | succ n ih => simp [FAT32.subfolder_address, ih]

/-- C7: for every 512-byte boot sector whose volume is valid, `root_address()`
is the exact product `root_sector() × bytes_per_sector` (which is
`root_sector() × 512`), with no reduction modulo `2^32`. -/
theorem C7_root_address_exact (b : List (Fin 256)) (_hb : b.length = 512)
    (hv : (FAT32.ctor b).isValid = true) :
    (FAT32.ctor b).root_address = (FAT32.ctor b).root_sector * (FAT32.ctor b).bytes_per_sector_ ∧
      (FAT32.ctor b).root_address = (FAT32.ctor b).root_sector * 512 := by
  have hbps : (FAT32.ctor b).bytes_per_sector_ = 512 := by
    simp only [FAT32.isValid, sector_size, Bool.and_eq_true, beq_iff_eq] at hv
    exact hv.1.1
  have h := ctor_root_sector_lt b
  have h2 : (FAT32.ctor b).root_address = (FAT32.ctor b).root_sector * 512 := by
    unfold FAT32.root_address sector_size
    exact Nat.mod_eq_of_lt (by omega)
  exact ⟨by rw [hbps]; exact h2, h2⟩

/-- C7, witness: a valid volume whose root sector is 16781296; its root address
8592023552 is above `2^32` and is not truncated. -/
theorem C7_root_address_exact_witness :
    farSector.length = 512 ∧ (FAT32.ctor farSector).isValid = true ∧
      2 ^ 32 ≤ (FAT32.ctor farSector).root_sector * 512 ∧
      (FAT32.ctor farSector).root_address = 8592023552 ∧
      (FAT32.ctor farSector).root_address
        = (FAT32.ctor farSector).root_sector * (FAT32.ctor farSector).bytes_per_sector_ :=
  ⟨by decide, by decide, by decide, by decide,
    (C7_root_address_exact farSector (by decide) (by decide)).1⟩

theorem loadSector_length (image : List (Fin 256)) : (loadSector image).length = 512 := by
  simp only [loadSector, sector_size, List.length_append, List.length_take,
    List.length_replicate]
  omega

/-- C8 (as amended): parsing never fails.  For every image the result is the
geometry constructed from the 512-byte buffer that holds the image's first (at
most 512) bytes, followed by zero bytes when the image is shorter; no input
gives an error, whatever its length or contents. -/
theorem C8_parse_never_fails (image : List (Fin 256)) :
    parse image = Except.ok (FAT32.ctor (loadSector image)) ∧
      (∀ e : ParseError, parse image ≠ Except.error e) ∧
      (loadSector image).length = 512 ∧
      (loadSector image).take (min 512 image.length) = image.take 512 ∧
      (loadSector image).drop (min 512 image.length)
        = List.replicate (512 - min 512 image.length) 0 := by
  refine ⟨rfl, fun e h => ?_, loadSector_length image, ?_, ?_⟩
  · simp [parse] at h
  · have h : (image.take 512).length = min 512 image.length := List.length_take _ _
    rw [← h]
    exact List.take_left' rfl
  · have h : (image.take 512).length = min 512 image.length := List.length_take _ _
    rw [← h]
    simp only [loadSector, sector_size]
    exact List.drop_left' rfl

/-- C8, counterexample: parsing the empty buffer, which is shorter than 512
bytes, does not fail with `MalformedBootSector`: it gives the geometry of the
all-zero sector (an invalid one). -/
theorem C8_short_buffer_is_not_rejected :
    ([] : List (Fin 256)).length < 512 ∧
      parse [] ≠ Except.error ParseError.MalformedBootSector ∧
      parse [] = Except.ok (FAT32.ctor (List.replicate 512 0)) ∧
      (FAT32.ctor (List.replicate 512 0)).isValid = false := by
  refine ⟨by decide, fun h => ?_, rfl, by decide⟩
  simp [parse] at h

/-! ## The claims on `DirectoryEntry` -/

theorem attributes_eq (de : List (Fin 256)) :
    DirectoryEntry.attributes de = (de.getD 11 0).val := readLE_one de 11

theorem filesize_eq (de : List (Fin 256)) :
    DirectoryEntry.filesize de = readLE de 28 4 := rfl

/-- The kind `printDirectoryEntry` prints, as the chain of its three tests. -/
theorem printDirectoryEntry_kind (de : List (Fin 256)) :
    (printDirectoryEntry de).map Printed.kind =
      if DirectoryEntry.isFile de = true then some EntryKind.file
      else if DirectoryEntry.isLongFileName de = true then some EntryKind.longFileName
      else if DirectoryEntry.isDirectory de = true then some EntryKind.directory
      else none := by
  unfold printDirectoryEntry
  by_cases h1 : DirectoryEntry.isFile de = true
  · simp [h1]
  · by_cases h2 : DirectoryEntry.isLongFileName de = true
    · simp [h1, h2]
    · by_cases h3 : DirectoryEntry.isDirectory de = true
      · simp [h1, h2, h3]
      · simp [h1, h2, h3]

/-- The chain of tests in the source's order and the specification's
classification agree on every attribute byte and size. -/
theorem kind_chain_eq_specClassify (a : Fin 256) (n : Nat) :
    (if ((a.val &&& 0x1E) == 0x00 && n != 0) = true then some EntryKind.file
      else if ((a.val &&& 0x0F) == 0x0F) = true then some EntryKind.longFileName
      else if ((a.val &&& 0x10) == 0x10) = true then some EntryKind.directory
      else none) = specClassify a.val n := by
  by_cases hn : n = 0
  · subst hn
    revert a
    decide
  · have h : (n != 0) = true := by simpa using hn
    simp only [specClassify, h, Bool.and_true, hn, ne_eq, not_false_eq_true, and_true]
    revert a
    decide

/-- C9: for every 32-byte record, the kind `printDirectoryEntry` chooses (testing
`isFile`, then `isLongFileName`, then `isDirectory`) is the specification's
classification (long-name fragment, else directory, else regular file, else
none); attribute byte `0x0F` always gives a long-name fragment, and attribute
bit `0x10` set with a low nibble other than `0x0F` always gives a directory. -/
theorem C9_print_kind_eq_spec_classification (de : List (Fin 256))
    (_h : de.length = 32) :
    (printDirectoryEntry de).map Printed.kind
        = specClassify (DirectoryEntry.attributes de) (DirectoryEntry.filesize de) ∧
      (DirectoryEntry.attributes de = 0x0F →
        (printDirectoryEntry de).map Printed.kind = some EntryKind.longFileName) ∧
      (DirectoryEntry.attributes de &&& 0x10 = 0x10 →
        DirectoryEntry.attributes de &&& 0x0F ≠ 0x0F →
        (printDirectoryEntry de).map Printed.kind = some EntryKind.directory) := by
  have key : (printDirectoryEntry de).map Printed.kind
      = specClassify (DirectoryEntry.attributes de) (DirectoryEntry.filesize de) := by
    rw [printDirectoryEntry_kind]
    unfold DirectoryEntry.isFile DirectoryEntry.isLongFileName DirectoryEntry.isDirectory
    rw [attributes_eq]
    exact kind_chain_eq_specClassify _ _
  refine ⟨key, fun h => ?_, fun h1 h2 => ?_⟩
  · rw [key, h]
    simp [specClassify]
  · rw [key]
    simp [specClassify, h1, h2]

/-- C9, witness: a record with attribute byte `0x10` prints as a directory, and
the same record with attribute byte `0x0F` as a long-name fragment. -/
theorem C9_print_kind_eq_spec_classification_witness :
    directoryRecord.length = 32 ∧
      (printDirectoryEntry directoryRecord).map Printed.kind = some EntryKind.directory ∧
      (printDirectoryEntry (directoryRecord.set 11 0x0F)).map Printed.kind
        = some EntryKind.longFileName :=
  ⟨by decide,
    (C9_print_kind_eq_spec_classification directoryRecord (by decide)).2.2
      (by decide) (by decide),
    (C9_print_kind_eq_spec_classification (directoryRecord.set 11 0x0F) (by decide)).2.1
      (by decide)⟩

theorem mask_1E_bits (a : Fin 256) :
    a.val &&& 0x1E = 0 ↔
      (a.val &&& 0x02 = 0 ∧ a.val &&& 0x04 = 0 ∧ a.val &&& 0x08 = 0 ∧ a.val &&& 0x10 = 0) := by
  revert a
  decide

/-- C10 (as amended): for every 32-byte record, `isFile()` is true exactly when
none of the hidden (0x02), system (0x04), volume-label (0x08) and directory
(0x10) attribute bits is set and the size field is nonzero; the read-only bit
(0x01) is not examined. -/
theorem C10_isFile_iff (de : List (Fin 256)) (_h : de.length = 32) :
    DirectoryEntry.isFile de = true ↔
      (DirectoryEntry.attributes de &&& 0x02 = 0 ∧ DirectoryEntry.attributes de &&& 0x04 = 0 ∧
        DirectoryEntry.attributes de &&& 0x08 = 0 ∧ DirectoryEntry.attributes de &&& 0x10 = 0 ∧
        DirectoryEntry.filesize de ≠ 0) := by
  have h := mask_1E_bits (de.getD 11 0)
  rw [← attributes_eq] at h
  simp only [DirectoryEntry.isFile, Bool.and_eq_true, beq_iff_eq, bne_iff_ne, ne_eq, h]
  tauto

/-- C10, witness: the record of a read-only file of size 1 is a file. -/
theorem C10_isFile_iff_witness :
    readOnlyFileRecord.length = 32 ∧ DirectoryEntry.isFile readOnlyFileRecord = true :=
  ⟨by decide,
    (C10_isFile_iff readOnlyFileRecord (by decide)).2
      ⟨by decide, by decide, by decide, by decide, by decide⟩⟩

/-- C10, counterexample: a record whose read-only bit (0x01) is set, with size 1,
is a file for `isFile()`. -/
theorem C10_read_only_record_is_file :
    readOnlyFileRecord.length = 32 ∧
      DirectoryEntry.attributes readOnlyFileRecord &&& 0x01 ≠ 0 ∧
      DirectoryEntry.filesize readOnlyFileRecord ≠ 0 ∧
      DirectoryEntry.isFile readOnlyFileRecord = true := by
  decide

theorem sne_cluster_high_eq (de : List (Fin 256)) :
    DirectoryEntry.sne de .cluster_high = readLE de 20 2 := rfl

theorem sne_cluster_low_eq (de : List (Fin 256)) :
    DirectoryEntry.sne de .cluster_low = readLE de 26 2 := rfl

theorem shl16_or (h l : Nat) (hh : h < 65536) (hl : l < 65536) :
    ((h * 65536) % 4294967296) ||| l = h * 65536 + l := by
  have e : (h * 65536) % 4294967296 = 2 ^ 16 * h := by
    rw [Nat.mod_eq_of_lt (by omega)]
    norm_num
    ring
  have hl2 : l < 2 ^ 16 := by norm_num; exact hl
  rw [e, ← Nat.mul_add_lt_is_or hl2 h]
  norm_num
  ring

/-- C11: for every 32-byte record, `attributes()` is byte 11, `filesize()` is the
little-endian 32-bit value of bytes 28..31, and `folderCluster()` is
`high16 × 65536 + low16`, with `high16` the little-endian 16-bit value of bytes
20..21 and `low16` that of bytes 26..27, for every pair of values (also
`high16 ≥ 0x8000`). -/
theorem C11_record_fields (de : List (Fin 256)) (_h : de.length = 32) :
    DirectoryEntry.attributes de = byteAt de 11 ∧
      DirectoryEntry.filesize de =
        byteAt de 28 + 256 * byteAt de 29 + 65536 * byteAt de 30 + 16777216 * byteAt de 31 ∧
      DirectoryEntry.folderCluster de =
        (byteAt de 20 + 256 * byteAt de 21) * 65536 + (byteAt de 26 + 256 * byteAt de 27) := by
  refine ⟨readLE_one de 11, (filesize_eq de).trans (readLE_four de 28), ?_⟩
  unfold DirectoryEntry.folderCluster
  rw [sne_cluster_high_eq, sne_cluster_low_eq, readLE_two, readLE_two]
  have h1 := byteAt_lt de 20
  have h2 := byteAt_lt de (20 + 1)
  have h3 := byteAt_lt de 26
  have h4 := byteAt_lt de (26 + 1)
  exact shl16_or _ _ (by omega) (by omega)

/-- C11, witness: a record with cluster-high `0x8000` and cluster-low 3 has
folder cluster `0x80000003`. -/
theorem C11_record_fields_witness :
    highClusterRecord.length = 32 ∧
      byteAt highClusterRecord 20 + 256 * byteAt highClusterRecord 21 = 0x8000 ∧
      DirectoryEntry.folderCluster highClusterRecord = 0x80000003 ∧
      DirectoryEntry.folderCluster highClusterRecord =
        (byteAt highClusterRecord 20 + 256 * byteAt highClusterRecord 21) * 65536
          + (byteAt highClusterRecord 26 + 256 * byteAt highClusterRecord 27) :=
  ⟨by decide, by decide, by decide, (C11_record_fields highClusterRecord (by decide)).2.2⟩

/-! ## Further claims on `FAT32` -/

/-- C18 (the code at the failing input): for the scenario's boot sector with
root-directory cluster 3 (4 sectors per cluster) the root sector is 4084, and
`subfolder_sector` applied to the root cluster of the parsed BPB gives 4088. -/
theorem C18_subfolder_sector_of_root_cluster :
    rootCluster3Sector.length = 512 ∧
      (FAT32.ctor rootCluster3Sector).isValid = true ∧
      (FAT32.ctor rootCluster3Sector).root_dir_cluster_ = 3 ∧
      (FAT32.ctor rootCluster3Sector).sectors_per_cluster_ = 4 ∧
      (FAT32.ctor rootCluster3Sector).root_sector = 4084 ∧
      (FAT32.ctor rootCluster3Sector).subfolder_sector
        (u32ToInt (FAT32.ctor rootCluster3Sector).root_dir_cluster_) = 4088 ∧
      (FAT32.ctor rootCluster3Sector).subfolder_sector
        (u32ToInt (FAT32.ctor rootCluster3Sector).root_dir_cluster_)
        ≠ (FAT32.ctor rootCluster3Sector).root_sector := by
  decide

theorem byteAt_set_ne (b : List (Fin 256)) (i j : Nat) (x : Fin 256) (h : i ≠ j) :
    byteAt (b.set i x) j = byteAt b j := by
  unfold byteAt
  simp [List.getD_eq_getElem?_getD, List.getElem?_set_ne h]

theorem ctor_isValid_eq (b : List (Fin 256)) :
    (FAT32.ctor b).isValid =
      (byteAt b 11 + 256 * byteAt b 12 == 512 && byteAt b 510 + 256 * byteAt b 511 == 0xAA55) := by
  have h1 : (FAT32.ctor b).bytes_per_sector_ = byteAt b 11 + 256 * byteAt b 12 :=
    (mbr_ebpb_bytes_per_sector b).trans (readLE_two b _)
  have h2 : (FAT32.ctor b).fs_signature_ = byteAt b 510 + 256 * byteAt b 511 :=
    (mbr_fs_signature_eq b).trans (readLE_two b _)
  unfold FAT32.isValid
  rw [h1, h2, ctor_partition_offset]
  simp [sector_size]

/-- C19: for every 512-byte boot sector the cached partition-table offset is the
constant 446, the layout offset `3 + 8 + 79 + 356` of `partition_entry`; so
`isValid()` is true exactly when bytes 11..12 hold 512 and bytes 510..511 hold
0xAA55, little-endian, and writing any value to any other byte of the sector
does not change the result. -/
theorem C19_isValid_reads_four_bytes (b : List (Fin 256)) (_hb : b.length = 512) :
    (FAT32.ctor b).partition_offset_ = 446 ∧
      structSize ebpb_t = 79 ∧
      offsetOf mbr_t .partition_entry = 3 + 8 + 79 + 356 ∧
      ((FAT32.ctor b).isValid = true ↔
        (byteAt b 11 + 256 * byteAt b 12 = 512 ∧ byteAt b 510 + 256 * byteAt b 511 = 0xAA55)) ∧
      ((FAT32.ctor b).isValid = true ↔
        (byteAt b 11 = 0x00 ∧ byteAt b 12 = 0x02 ∧ byteAt b 510 = 0x55 ∧ byteAt b 511 = 0xAA)) ∧
      (∀ (i : Nat) (x : Fin 256), i ≠ 11 → i ≠ 12 → i ≠ 510 → i ≠ 511 →
        (FAT32.ctor (b.set i x)).isValid = (FAT32.ctor b).isValid) := by
  have h : (FAT32.ctor b).isValid = true ↔
      (byteAt b 11 + 256 * byteAt b 12 = 512 ∧ byteAt b 510 + 256 * byteAt b 511 = 0xAA55) := by
    rw [ctor_isValid_eq]
    simp only [Bool.and_eq_true, beq_iff_eq]
  refine ⟨ctor_partition_offset b, by decide, by decide, h, ?_, ?_⟩
  · rw [h]
    have h1 := byteAt_lt b 11
    have h2 := byteAt_lt b 12
    have h3 := byteAt_lt b 510
    have h4 := byteAt_lt b 511
    omega
  · intro i x h11 h12 h510 h511
    rw [ctor_isValid_eq, ctor_isValid_eq, byteAt_set_ne b i 11 x h11,
      byteAt_set_ne b i 12 x h12, byteAt_set_ne b i 510 x h510, byteAt_set_ne b i 511 x h511]

/-- C19, witness: the scenario's boot sector is valid, and stays valid when
its sectors-per-cluster byte (offset 13) is overwritten. -/
theorem C19_isValid_reads_four_bytes_witness :
    scenarioSector.length = 512 ∧ (FAT32.ctor scenarioSector).isValid = true ∧
      (FAT32.ctor (scenarioSector.set 13 9)).isValid = (FAT32.ctor scenarioSector).isValid :=
  ⟨by decide,
    (C19_isValid_reads_four_bytes scenarioSector (by decide)).2.2.2.2.1.2
      ⟨by decide, by decide, by decide, by decide⟩,
    (C19_isValid_reads_four_bytes scenarioSector (by decide)).2.2.2.2.2 13 9
      (by decide) (by decide) (by decide) (by decide)⟩

/-! ## The loops of `appendName` -/

theorem map_getD_range (l : List (Fin 256)) (n : Nat) (h : n ≤ l.length) :
    (List.range n).map (fun i => l.getD i 0) = l.take n := by
  apply List.ext_getElem
  · simp [h]
  · intro i h1 h2
    have hi : i < n := by simpa using h1
    have hl : i < l.length := by omega
    simp [List.getD_eq_getElem?_getD, List.getElem?_eq_getElem hl]

theorem foldl_set_range (g : Nat → Fin 256) (n : Nat) (buf : List (Fin 256))
    (h : n ≤ buf.length) :
    (List.range n).foldl (fun acc i => acc.set i (g i)) buf
      = (List.range n).map g ++ buf.drop n := by
  induction n with
  | zero => simp
  | succ n ih =>
    have hn : n < buf.length := by omega
    rw [List.range_succ, List.foldl_append, ih (by omega), List.map_append]
    simp only [List.foldl_cons, List.foldl_nil, List.map_cons, List.map_nil]
    rw [List.set_append_right _ _ (by simp), List.drop_eq_getElem_cons hn]
    simp only [List.length_map, List.length_range, Nat.sub_self, List.set_cons_zero,
      List.append_assoc, List.singleton_append]

theorem appendShortName_eq (de namebuf : List (Fin 256)) (hd : 11 ≤ de.length)
    (hn : 11 ≤ namebuf.length) :
    DirectoryEntry.appendShortName de namebuf = de.take 11 ++ namebuf.drop 11 := by
  have hw : widthOf shortname_entry_t .shortname = 11 := by decide
  have ho : offsetOf shortname_entry_t .shortname = 0 := by decide
  unfold DirectoryEntry.appendShortName
  rw [hw, ho, foldl_set_range (fun i => de.getD (0 + i) 0) 11 namebuf hn]
  simp only [Nat.zero_add]
  rw [map_getD_range de 11 hd]

theorem throughZero_length_le (l : List (Fin 256)) : (throughZero l).length ≤ l.length := by
  induction l with
  | nil => simp [throughZero]
  | cons x xs ih =>
    unfold throughZero
    split
    · simp
    · simp only [List.length_cons]
      omega

theorem appendLongName_eq (entry : List (Fin 256)) (sz : Nat) :
    ∀ (steps i : Nat) (pre rest : List (Fin 256)),
      (longNameReads entry sz steps i).length ≤ rest.length →
      DirectoryEntry.appendLongName entry sz steps i pre.length (pre ++ rest)
        = pre ++ throughZero (longNameReads entry sz steps i)
            ++ rest.drop (throughZero (longNameReads entry sz steps i)).length := by
  intro steps
  induction steps with
  | zero =>
    intro i pre rest _
    simp [DirectoryEntry.appendLongName, longNameReads, throughZero]
  | succ n ih =>
    intro i pre rest h
    unfold DirectoryEntry.appendLongName longNameReads
    by_cases hi : i < sz
    · simp only [longNameReads, hi, if_true, List.length_cons] at h
      simp only [hi, if_true]
      cases rest with
      | nil => simp at h
      | cons r rest1 =>
        have hset : (pre ++ r :: rest1).set pre.length (DirectoryEntry.longNameByte entry i)
            = pre ++ DirectoryEntry.longNameByte entry i :: rest1 := by
          rw [List.set_append_right _ _ (Nat.le_refl _)]
          simp
        rw [hset]
        by_cases hx : DirectoryEntry.longNameByte entry i = 0
        · simp [hx, throughZero]
        · have h1 : (longNameReads entry sz n (i + 2)).length ≤ rest1.length := by
            simp only [List.length_cons] at h
            omega
          have e := ih (i + 2) (pre ++ [DirectoryEntry.longNameByte entry i]) rest1 h1
          simp only [List.length_append, List.length_cons, List.length_nil, Nat.zero_add,
            List.append_assoc, List.singleton_append] at e
          simp only [hx, if_false, throughZero, List.length_cons, List.drop_succ_cons]
          rw [e]
          simp
    · simp [hi, throughZero]

theorem longNameReads_eq (entry : List (Fin 256)) :
    longNameReads entry 24 24 0 = lowNameBytes entry := by
  simp [longNameReads, DirectoryEntry.longNameByte, lowNameBytes, widthOf, offsetOf,
    longname_entry_t]

theorem lowNameBytes_length (entry : List (Fin 256)) : (lowNameBytes entry).length = 12 := by
  simp [lowNameBytes]

theorem appendName_long (de namebuf : List (Fin 256)) (hl : DirectoryEntry.isLongFileName de = true)
    (hn : 12 ≤ namebuf.length) :
    DirectoryEntry.appendName de (some namebuf)
      = some (throughZero (lowNameBytes de)
          ++ namebuf.drop (throughZero (lowNameBytes de)).length) := by
  have hsz : widthOf longname_entry_t .longname1 + widthOf longname_entry_t .longname2
      + widthOf longname_entry_t .longname3 = 24 := by decide
  have h := appendLongName_eq de 24 24 0 [] namebuf
    (by rw [longNameReads_eq, lowNameBytes_length]; exact hn)
  rw [longNameReads_eq] at h
  simp only [List.length_nil, List.nil_append] at h
  simp only [DirectoryEntry.appendName, hl, if_true, hsz]
  rw [h]

theorem appendName_short (de namebuf : List (Fin 256))
    (hl : DirectoryEntry.isLongFileName de = false) (hd : 11 ≤ de.length)
    (hn : 11 ≤ namebuf.length) :
    DirectoryEntry.appendName de (some namebuf) = some (de.take 11 ++ namebuf.drop 11) := by
  simp only [DirectoryEntry.appendName, hl, Bool.false_eq_true, if_false]
  rw [appendShortName_eq de namebuf hd hn]

theorem cString_append_zeros (a : List (Fin 256)) (k : Nat) :
    cString (a ++ List.replicate k 0) = cString a := by
  induction a with
  | nil =>
    cases k with
    | zero => rfl
    | succ k => simp [cString, List.replicate_succ]
  | cons x xs ih =>
    unfold cString at ih ⊢
    by_cases hx : x = 0
    · simp [hx]
    · simp [List.takeWhile_cons, hx, ih]

theorem cString_throughZero (l : List (Fin 256)) :
    cString (throughZero l) = l.takeWhile (fun c => c != 0) := by
  induction l with
  | nil => simp [throughZero, cString]
  | cons x xs ih =>
    unfold cString at ih ⊢
    unfold throughZero
    by_cases hx : x = 0
    · simp [hx]
    · simp [List.takeWhile_cons, hx, ih]

theorem appendName_long_zero_buffer (de : List (Fin 256))
    (hl : DirectoryEntry.isLongFileName de = true) :
    DirectoryEntry.appendName de (some (List.replicate 32 0))
      = some (throughZero (lowNameBytes de)
          ++ List.replicate (32 - (throughZero (lowNameBytes de)).length) 0) := by
  rw [appendName_long de _ hl (by simp), List.drop_replicate]

theorem appendName_long_cString (de : List (Fin 256))
    (hl : DirectoryEntry.isLongFileName de = true) :
    (DirectoryEntry.appendName de (some (List.replicate 32 0))).map cString
      = some ((lowNameBytes de).takeWhile (fun c => c != 0)) := by
  rw [appendName_long_zero_buffer de hl, Option.map_some', cString_append_zeros,
    cString_throughZero]

theorem appendName_short_cString (de : List (Fin 256))
    (hl : DirectoryEntry.isLongFileName de = false) (hd : de.length = 32) :
    (DirectoryEntry.appendName de (some (List.replicate 32 0))).map cString
      = some (cString (de.take 11)) := by
  rw [appendName_short de _ hl (by omega) (by simp), List.drop_replicate, Option.map_some',
    cString_append_zeros]

/-! ## The claims on `appendName` -/

theorem takeWhile_prefix_append (p : Fin 256 → Bool) (l m : List (Fin 256)) :
    l.takeWhile p <+: (l ++ m).takeWhile p := by
  induction l with
  | nil => exact List.nil_prefix
  | cons x xs ih =>
    by_cases hx : p x = true
    · rw [List.cons_append, List.takeWhile_cons_of_pos hx, List.takeWhile_cons_of_pos hx]
      exact (List.prefix_cons_inj x).2 ih
    · rw [List.cons_append, List.takeWhile_cons_of_neg hx, List.takeWhile_cons_of_neg hx]

theorem takeWhile_append_of_mem_zero (l m : List (Fin 256)) (h : ∃ c ∈ l, c = 0) :
    (l ++ m).takeWhile (fun c => c != 0) = l.takeWhile (fun c => c != 0) := by
  induction l with
  | nil =>
    obtain ⟨c, hc, _⟩ := h
    simp at hc
  | cons x xs ih =>
    by_cases hx : x = 0
    · simp [hx]
    · have h2 : ∃ c ∈ xs, c = 0 := by
        obtain ⟨c, hc, hc0⟩ := h
        rcases List.mem_cons.1 hc with h1 | h1
        · exact absurd (h1 ▸ hc0) hx
        · exact ⟨c, h1, hc0⟩
      simp [List.takeWhile_cons, hx, ih h2]

theorem producedName_long (de : List (Fin 256))
    (hl : DirectoryEntry.isLongFileName de = true) :
    producedName de = (lowNameBytes de).takeWhile (fun c => c != 0) := by
  unfold producedName
  rw [appendName_long_zero_buffer de hl, Option.getD_some, cString_append_zeros,
    cString_throughZero]

/-- C13 (as amended): for every record classified as a long-name fragment, the
name `appendName` produces is made of the low bytes of the record's name code
units, taken from the three name sub-fields in order.  It begins with the low
bytes of the first twelve units cut off before the first zero one, it holds
nothing beyond the low bytes of the thirteen units cut off before the first
zero one, and it is exactly that whenever one of the first twelve units has a
zero low byte.  High bytes are not read and the padding unit 0xFFFF is not
recognised. -/
theorem C13_long_name_is_low_bytes (de : List (Fin 256)) (_hd : de.length = 32)
    (hl : DirectoryEntry.isLongFileName de = true) :
    (lowNameBytes de).takeWhile (fun c => c != 0) <+: producedName de ∧
      producedName de <+: (lowNameBytes de ++ [de.getD 30 0]).takeWhile (fun c => c != 0) ∧
      ((∃ c ∈ lowNameBytes de, c = 0) →
        producedName de
          = (lowNameBytes de ++ [de.getD 30 0]).takeWhile (fun c => c != 0)) := by
  rw [producedName_long de hl]
  exact ⟨List.prefix_refl _, takeWhile_prefix_append _ _ _,
    fun h => (takeWhile_append_of_mem_zero _ _ h).symm⟩

/-- C13, witness: for the fragment whose units are `A`, 0xFFFF and nulls, the
name produced is the two bytes 0x41, 0xFF. -/
theorem C13_long_name_is_low_bytes_witness :
    paddedFragment.length = 32 ∧ DirectoryEntry.isLongFileName paddedFragment = true ∧
      (∃ c ∈ lowNameBytes paddedFragment, c = 0) ∧
      (lowNameBytes paddedFragment ++ [paddedFragment.getD 30 0]).takeWhile (fun c => c != 0)
        = [0x41, 0xFF] ∧
      producedName paddedFragment
        = (lowNameBytes paddedFragment ++ [paddedFragment.getD 30 0]).takeWhile
            (fun c => c != 0) :=
  ⟨by decide, by decide, by decide, by decide,
    (C13_long_name_is_low_bytes paddedFragment (by decide) (by decide)).2.2 (by decide)⟩

/-- C13, counterexample: the long-name fragment whose name code units are `A`
(0x0041), the padding unit 0xFFFF, then null units has the name `[0x0041]` by
the specification's rule, but `appendName` produces the two bytes 0x41, 0xFF:
it is not cut off before the padding unit. -/
theorem C13_padding_unit_is_not_cut_off :
    paddedFragment.length = 32 ∧ DirectoryEntry.isLongFileName paddedFragment = true ∧
      specNameUnits paddedFragment = [0x0041, 0xFFFF, 0, 0, 0, 0, 0, 0, 0, 0, 0, 0] ∧
      specFragmentName paddedFragment = [0x0041] ∧
      (DirectoryEntry.appendName paddedFragment (some (List.replicate 32 0))).map cString
        = some [0x41, 0xFF] ∧
      ([0x41, 0xFF] : List (Fin 256)).map Fin.val ≠ specFragmentName paddedFragment := by
  decide

/-- C14 (the code at the failing input): for the long-name fragment with the
thirteen non-null name code units `A` to `M` (five at offset 1, six at 14, two
at 28), the decoded name is the twelve bytes `ABCDEFGHIJKL`; the three name
sub-fields of `longname_entry_t` hold 24 bytes and the struct is 30 bytes
long, while the record and `shortname_entry_t` are 32. -/
theorem C14_thirteen_units_decode_to_twelve :
    thirteenUnitFragment.length = 32 ∧
      DirectoryEntry.isLongFileName thirteenUnitFragment = true ∧
      (∀ k ∈ [1, 3, 5, 7, 9, 14, 16, 18, 20, 22, 24, 28, 30],
        readLE thirteenUnitFragment k 2 ≠ 0) ∧
      (DirectoryEntry.appendName thirteenUnitFragment (some (List.replicate 32 0))).map cString
        = some [0x41, 0x42, 0x43, 0x44, 0x45, 0x46, 0x47, 0x48, 0x49, 0x4A, 0x4B, 0x4C] ∧
      widthOf longname_entry_t .longname1 + widthOf longname_entry_t .longname2
        + widthOf longname_entry_t .longname3 = 24 ∧
      structSize longname_entry_t = 30 ∧
      structSize shortname_entry_t = 32 ∧
      DirectoryEntry.size = 32 := by
  decide

/-- C15: for every record that is not a long-name fragment, `appendName` writes
exactly the 11 bytes of the record's name field, bytes 0..10, to the start of
the buffer, in order and unchanged, and leaves the rest of the buffer as it
was: no terminator is looked for, no padding stripped, no dot inserted. -/
theorem C15_short_name_copied_verbatim (de namebuf : List (Fin 256)) (hd : de.length = 32)
    (hn : 11 ≤ namebuf.length) (hl : DirectoryEntry.isLongFileName de = false) :
    DirectoryEntry.appendName de (some namebuf) = some (de.take 11 ++ namebuf.drop 11) ∧
      (de.take 11).length = 11 := by
  refine ⟨appendName_short de namebuf hl (by omega) hn, ?_⟩
  simp [hd]

/-- C15, witness: for the record `FILE1   TXT` and a zeroed 32-byte buffer the
buffer becomes the 11 bytes `FILE1   TXT` followed by 21 zero bytes. -/
theorem C15_short_name_copied_verbatim_witness :
    file1Record.length = 32 ∧ DirectoryEntry.isLongFileName file1Record = false ∧
      file1Record.take 11 = file1Name ∧
      DirectoryEntry.appendName file1Record (some (List.replicate 32 0))
        = some (file1Record.take 11 ++ (List.replicate 32 (0 : Fin 256)).drop 11) :=
  ⟨by decide, by decide, by decide,
    (C15_short_name_copied_verbatim file1Record (List.replicate 32 0) (by decide) (by decide)
      (by decide)).1⟩

theorem written_then_zeros (w : List (Fin 256)) (hw : w.length ≤ 12) :
    (w ++ List.replicate (32 - w.length) 0).length = 32 ∧
      (w ++ List.replicate (32 - w.length) 0).drop 12 = List.replicate 20 0 ∧
      (w ++ List.replicate (32 - w.length) 0).getD 31 0 = 0 ∧
      (cString (w ++ List.replicate (32 - w.length) 0)).length ≤ 12 := by
  have h2 : (w ++ List.replicate (32 - w.length) 0).drop 12 = List.replicate 20 0 := by
    rw [List.drop_append_eq_append_drop, List.drop_eq_nil_of_le hw, List.drop_replicate,
      List.nil_append]
    congr 1
    omega
  refine ⟨by simp; omega, h2, ?_, ?_⟩
  · have h3 : (w ++ List.replicate (32 - w.length) 0)[12 + 19]?
        = (List.replicate 20 (0 : Fin 256))[19]? := by
      rw [← List.getElem?_drop, h2]
    rw [List.getD_eq_getElem?_getD, show (31 : Nat) = 12 + 19 from rfl, h3]
    simp
  · rw [cString_append_zeros]
    exact Nat.le_trans (List.takeWhile_sublist _).length_le hw

/-- C20: for every 32-byte record and 32-byte name buffer, `appendName` writes
only a run of bytes at the start of the buffer, at most 12 of them for a
long-name fragment and exactly 11 for any other record, and leaves every later
byte as it was; so in the zeroed 32-byte buffer of `printDirectoryEntry` the
bytes from offset 12 on stay zero, the last byte is zero, and the string
printed has at most 12 bytes. -/
theorem C20_appendName_stays_in_first_12_bytes (de namebuf : List (Fin 256))
    (hd : de.length = 32) (hn : namebuf.length = 32) :
    (∃ written : List (Fin 256),
        DirectoryEntry.appendName de (some namebuf)
          = some (written ++ namebuf.drop written.length) ∧
        written.length ≤ 12 ∧
        (DirectoryEntry.isLongFileName de = false → written.length = 11)) ∧
      (∃ out : List (Fin 256),
        DirectoryEntry.appendName de (some (List.replicate 32 0)) = some out ∧
        out.length = 32 ∧ out.drop 12 = List.replicate 20 0 ∧ out.getD 31 0 = 0 ∧
        (cString out).length ≤ 12) := by
  by_cases hl : DirectoryEntry.isLongFileName de = true
  · have hw : (throughZero (lowNameBytes de)).length ≤ 12 := by
      have h := throughZero_length_le (lowNameBytes de)
      rw [lowNameBytes_length] at h
      exact h
    refine ⟨⟨throughZero (lowNameBytes de), appendName_long de namebuf hl (by omega), hw,
      fun h => ?_⟩, ⟨_, appendName_long_zero_buffer de hl, written_then_zeros _ hw⟩⟩
    rw [hl] at h
    exact absurd h (by decide)
  · have hl2 : DirectoryEntry.isLongFileName de = false := by simpa using hl
    have hlen : (de.take 11).length = 11 := by simp [hd]
    have hz : DirectoryEntry.appendName de (some (List.replicate 32 0))
        = some (de.take 11 ++ List.replicate (32 - (de.take 11).length) 0) := by
      rw [appendName_short de _ hl2 (by omega) (by simp), List.drop_replicate, hlen]
    refine ⟨⟨de.take 11, ?_, by omega, fun _ => hlen⟩,
      ⟨_, hz, written_then_zeros _ (by omega)⟩⟩
    rw [hlen]
    exact appendName_short de namebuf hl2 (by omega) (by omega)

/-- C20, witness: for the fragment `LONGFILE.TXT`, which fills all twelve name
bytes, the buffer still ends in a zero byte. -/
theorem C20_appendName_stays_in_first_12_bytes_witness :
    longfileFragment.length = 32 ∧ (List.replicate 32 (0 : Fin 256)).length = 32 ∧
      DirectoryEntry.appendName longfileFragment (some (List.replicate 32 0))
        = some (longfileName ++ List.replicate 20 0) ∧
      (∃ out : List (Fin 256),
        DirectoryEntry.appendName longfileFragment (some (List.replicate 32 0)) = some out ∧
        out.length = 32 ∧ out.drop 12 = List.replicate 20 0 ∧ out.getD 31 0 = 0 ∧
        (cString out).length ≤ 12) :=
  ⟨by decide, by decide, by decide,
    (C20_appendName_stays_in_first_12_bytes longfileFragment (List.replicate 32 0) (by decide)
      (by decide)).2⟩

/-! ## The directory loop -/

theorem printDirectoryEntry_short (s : List (Fin 256)) (hs : s.length = 32)
    (hl : DirectoryEntry.isLongFileName s = false)
    (hk : DirectoryEntry.isFile s = true ∨ DirectoryEntry.isDirectory s = true) :
    printDirectoryEntry s
      = some (Printed.mk
          (if DirectoryEntry.isFile s = true then EntryKind.file else EntryKind.directory)
          (cString (s.take 11))
          (if DirectoryEntry.isFile s = true then none
            else some (u32ToInt (DirectoryEntry.folderCluster s)))) := by
  have h : DirectoryEntry.appendName s (some (List.replicate 32 0))
      = some (s.take 11 ++ List.replicate 21 0) := by
    rw [appendName_short s _ hl (by omega) (by simp), List.drop_replicate]
  unfold printDirectoryEntry
  simp only [h, Option.getD_some, cString_append_zeros, hl, Bool.false_eq_true, if_false]
  by_cases hf : DirectoryEntry.isFile s = true
  · simp [hf]
  · have hd : DirectoryEntry.isDirectory s = true := hk.resolve_left hf
    simp [hf, hd]

/-- The line of a directory record with cluster-high `0x8000` and cluster-low 3:
`%d` prints the cluster as the negative number -2147483645. -/
theorem printDirectoryEntry_highClusterRecord :
    printDirectoryEntry highClusterRecord
      = some (Printed.mk EntryKind.directory [0x44] (some (-2147483645))) := by
  decide

theorem attributes_set_zero (de : List (Fin 256)) (x : Fin 256) :
    DirectoryEntry.attributes (de.set 0 x) = DirectoryEntry.attributes de := by
  have h := byteAt_set_ne de 0 11 x (by decide)
  unfold byteAt at h
  rw [attributes_eq, attributes_eq, h]

theorem filesize_set_zero (de : List (Fin 256)) (x : Fin 256) :
    DirectoryEntry.filesize (de.set 0 x) = DirectoryEntry.filesize de := by
  rw [filesize_eq, filesize_eq, readLE_four, readLE_four, byteAt_set_ne de 0 28 x (by decide),
    byteAt_set_ne de 0 (28 + 1) x (by decide), byteAt_set_ne de 0 (28 + 2) x (by decide),
    byteAt_set_ne de 0 (28 + 3) x (by decide)]

theorem printDirectoryEntry_kind_spec (de : List (Fin 256)) :
    (printDirectoryEntry de).map Printed.kind
      = specClassify (DirectoryEntry.attributes de) (DirectoryEntry.filesize de) := by
  rw [printDirectoryEntry_kind]
  unfold DirectoryEntry.isFile DirectoryEntry.isLongFileName DirectoryEntry.isDirectory
  rw [attributes_eq]
  exact kind_chain_eq_specClassify _ _

/-- C16 (as amended): the first byte of a record is not examined. For every
32-byte record and every value written to its first byte (0xE5 and 0x00
included), the line printed is of the kind that the attribute byte and the
size field give, the same as for the record as it was; only a record that is
neither file, long-name fragment nor directory, such as the all-zero record,
prints nothing. -/
theorem C16_first_byte_is_not_examined (de : List (Fin 256)) (x : Fin 256)
    (_hd : de.length = 32) :
    (printDirectoryEntry (de.set 0 x)).map Printed.kind
        = specClassify (DirectoryEntry.attributes de) (DirectoryEntry.filesize de) ∧
      (printDirectoryEntry (de.set 0 x)).map Printed.kind
        = (printDirectoryEntry de).map Printed.kind ∧
      printDirectoryEntry (List.replicate 32 0) = none := by
  have h : (printDirectoryEntry (de.set 0 x)).map Printed.kind
      = specClassify (DirectoryEntry.attributes de) (DirectoryEntry.filesize de) := by
    rw [printDirectoryEntry_kind_spec, attributes_set_zero, filesize_set_zero]
  refine ⟨h, ?_, by decide⟩
  rw [h, printDirectoryEntry_kind_spec]

/-- C16, witness: the record `FILE1   TXT` with 0xE5 written to its first byte
still prints as a file. -/
theorem C16_first_byte_is_not_examined_witness :
    file1Record.length = 32 ∧
      (printDirectoryEntry (file1Record.set 0 0xE5)).map Printed.kind = some EntryKind.file ∧
      (printDirectoryEntry (file1Record.set 0 0xE5)).map Printed.kind
        = (printDirectoryEntry file1Record).map Printed.kind :=
  ⟨by decide, by decide,
    (C16_first_byte_is_not_examined file1Record 0xE5 (by decide)).2.1⟩

/-- C16, counterexample: the record `FILE1   TXT` (attribute 0x20, size 100) with
the deletion marker 0xE5, or the end marker 0x00, as its first byte produces a
file entry, and a sector holding it gives a listing entry. -/
theorem C16_marked_record_is_listed :
    deletedFileRecord.length = 32 ∧ byteAt deletedFileRecord 0 = 0xE5 ∧
      (printDirectoryEntry deletedFileRecord).map Printed.kind = some EntryKind.file ∧
      (scanDirectory (deletedFileRecord ++ List.replicate 480 0)).length = 1 ∧
      byteAt (file1Record.set 0 0x00) 0 = 0x00 ∧
      printDirectoryEntry (file1Record.set 0 0x00)
        = some (Printed.mk EntryKind.file [] none) := by
  decide

theorem filterMap_range_none (f : Nat → Option Printed) (n : Nat)
    (h : ∀ j, j < n → f j = none) : (List.range n).filterMap f = [] := by
  induction n with
  | zero => rfl
  | succ n ih =>
    rw [List.range_succ, List.filterMap_append, ih (fun j hj => h j (by omega))]
    simp [h n (by omega)]

theorem filterMap_range_single (f : Nat → Option Printed) (n k : Nat) (x : Printed)
    (hk : k < n) (hx : f k = some x) (h : ∀ j, j < n → j ≠ k → f j = none) :
    (List.range n).filterMap f = [x] := by
  induction n with
  | zero => omega
  | succ n ih =>
    rw [List.range_succ, List.filterMap_append]
    by_cases hkn : k = n
    · rw [filterMap_range_none f n (fun j hj => h j (by omega) (by omega))]
      simp [← hkn, hx]
    · rw [ih (by omega) (fun j hj hjk => h j (by omega) hjk)]
      simp [h n (by omega) (fun e => hkn e.symm)]

theorem scanDirectory_eq (buf : List (Fin 256)) :
    scanDirectory buf
      = (List.range 16).filterMap (fun i => printDirectoryEntry (recordAt buf i)) := rfl

theorem recordAt_length (buf : List (Fin 256)) (k : Nat) (hb : buf.length = 512)
    (hk : k < 16) : (recordAt buf k).length = 32 := by
  simp only [recordAt, DirectoryEntry.size, List.length_take, List.length_drop, hb]
  omega

/-- C17 (as amended): for every 512-byte directory sector whose only non-zero
record, in any of its sixteen slots, is a record with attribute byte 0x20 and
nonzero size, the scan yields exactly one entry: kind file, named by the
record's 11-byte name field as it is (cut at a zero byte if it has one), with
the padding kept and no dot inserted, and with no size; the all-zero records
yield nothing. -/
theorem C17_single_file_record (buf : List (Fin 256)) (k : Nat) (hb : buf.length = 512)
    (hk : k < 16) (ha : DirectoryEntry.attributes (recordAt buf k) = 0x20)
    (hz : DirectoryEntry.filesize (recordAt buf k) ≠ 0)
    (hzero : ∀ j, j < 16 → j ≠ k → recordAt buf j = List.replicate 32 0) :
    scanDirectory buf
      = [Printed.mk EntryKind.file (cString ((recordAt buf k).take 11)) none] := by
  have hr := recordAt_length buf k hb hk
  have hl : DirectoryEntry.isLongFileName (recordAt buf k) = false := by
    unfold DirectoryEntry.isLongFileName
    rw [ha]
    decide
  have hf : DirectoryEntry.isFile (recordAt buf k) = true := by
    have h1 : ((0x20 &&& 0x1E : Nat) == 0x00) = true := by decide
    have h2 : (DirectoryEntry.filesize (recordAt buf k) != 0) = true := by simpa using hz
    unfold DirectoryEntry.isFile
    rw [ha, h1, h2]
    rfl
  have hx : printDirectoryEntry (recordAt buf k)
      = some (Printed.mk EntryKind.file (cString ((recordAt buf k).take 11)) none) := by
    rw [printDirectoryEntry_short _ hr hl (Or.inl hf)]
    simp [hf]
  have hnone : printDirectoryEntry (List.replicate 32 0) = none := by decide
  rw [scanDirectory_eq]
  exact filterMap_range_single _ 16 k _ hk hx (fun j hj hjk => by rw [hzero j hj hjk, hnone])

/-- C17, witness: the sector whose only non-zero record is `FILE1   TXT`, size
100, in slot 3 gives one file entry, named `FILE1   TXT`. -/
theorem C17_single_file_record_witness :
    file1InSlot3Sector.length = 512 ∧ recordAt file1InSlot3Sector 3 = file1Record ∧
      DirectoryEntry.attributes (recordAt file1InSlot3Sector 3) = 0x20 ∧
      DirectoryEntry.filesize (recordAt file1InSlot3Sector 3) = 100 ∧
      cString ((recordAt file1InSlot3Sector 3).take 11) = file1Name ∧
      scanDirectory file1InSlot3Sector
        = [Printed.mk EntryKind.file (cString ((recordAt file1InSlot3Sector 3).take 11))
            none] :=
  ⟨by decide, by decide, by decide, by decide, by decide,
    C17_single_file_record file1InSlot3Sector 3 (by decide) (by decide) (by decide)
      (by decide) (by decide)⟩

/-- C17, counterexample: for the sector whose only non-zero record has name
`FILE1   TXT`, attribute byte 0x20 and size 100, the one entry of the scan is
named `FILE1   TXT`, the eleven bytes of the name field, not `FILE1.TXT`. -/
theorem C17_name_is_not_normalized :
    (file1Record ++ List.replicate 480 0).length = 512 ∧
      DirectoryEntry.attributes file1Record = 0x20 ∧
      DirectoryEntry.filesize file1Record = 100 ∧
      scanDirectory (file1Record ++ List.replicate 480 0)
        = [Printed.mk EntryKind.file file1Name none] ∧
      file1Name ≠ file1DottedName := by
  decide

end fat32
end filesystem
